import Mathlib

/-!
Verification of the SmartClassroom AI lecture-notes pipeline.

The repository contains several near-duplicate Express handlers that turn an
uploaded lecture video into AI-generated PDF notes.  This file gives a shallow
embedding of the parts of those handlers with non-trivial control flow — the
transcription polling loops, the per-frame OCR loops, the multi-provider
fallback chain, the response-field probing, the error/cleanup handling, the
markdown line classification, the PDF write/flush ordering, the upload size
limit and the dual-language transcript merge — and proves or refutes the
specified properties about them.

Naming of the variants, throughout the file:
  * `Idx` refers to the handlers in `src/index.js` (the file holds three
    consecutive server variants; where they differ the suffixes `Idx1`,
    `Idx2`, `Idx3` are used for the first, second and third `POST /process`
    handler in that file);
  * `P000` refers to `src/unnamed/part_000` (the hardened single-language
    variant with per-frame OCR recovery and the minimum-length notes guard);
  * `P001` refers to `src/unnamed/part_001` (the Whisper variant whose
    cleanup calls are commented out).
-/

namespace SmartClassroom

/-- Status of an AWS Transcribe job, as read from
`job.TranscriptionJob.TranscriptionJobStatus` by the polling loops.  Any
status other than `completed`/`failed` makes the loops poll again. -/
inductive JobStatus
  | submitted
  | inProgress
  | completed
  | failed
  deriving DecidableEq, Repr

/-- One poll's view of a transcription job: its status together with the
`results.transcripts` array (each element's `.transcript` string) of the
payload that would be fetched from `Transcript.TranscriptFileUri` on
completion. -/
structure JobView where
  status : JobStatus
  transcripts : List String
  deriving Repr

/-- A job status that keeps the loop polling (`while (true)` continues). -/
def nonTerminal (s : JobStatus) : Prop :=
  s ≠ JobStatus.completed ∧ s ≠ JobStatus.failed

instance (s : JobStatus) : Decidable (nonTerminal s) := by
  unfold nonTerminal
  infer_instance

/-- Fuel-bounded embedding of the `while (true)` transcription polling loops.
`jobs n` is the job view returned by the n-th `GetTranscriptionJobCommand`.
The variants differ only in what they do on `COMPLETED` (`onDone`) and on
`FAILED` (`onFail`); on any other status they sleep and poll again.  `none`
means the fuel ran out with the loop still polling (the JS loop has no
attempt cap, so exhausted fuel corresponds to the loop still running). -/
def pollLoopGen (onDone : JobView → Except String String)
    (onFail : Except String String) :
    Nat → (Nat → JobView) → Option (Except String String)
  | 0, _ => none
  | fuel + 1, jobs =>
    match (jobs 0).status with
    | JobStatus.completed => some (onDone (jobs 0))
    | JobStatus.failed => some onFail
    | JobStatus.submitted => pollLoopGen onDone onFail fuel (fun i => jobs (i + 1))
    | JobStatus.inProgress => pollLoopGen onDone onFail fuel (fun i => jobs (i + 1))

/-- Extraction of `resp.data.results.transcripts[0].transcript` on a
completed job: the JS expression throws a TypeError when the `transcripts`
array is empty, hence the `Except`. -/
def extractFirstTranscript (j : JobView) : Except String String :=
  match j.transcripts.head? with
  | some t => Except.ok t
  | none => Except.error "TypeError"

/-- The polling loop of the `src/index.js` handlers (first variant lines
100-114; the third variant lines 1091-1104 is identical): on `COMPLETED`
return `transcripts[0].transcript`, on `FAILED` throw
`new Error("Transcription failed")`. -/
def pollLoopIdx : Nat → (Nat → JobView) → Option (Except String String) :=
  pollLoopGen extractFirstTranscript (Except.error "Transcription failed")

/-- The polling loop of `part_000` (lines 109-123): on `COMPLETED` it joins
all transcripts with a newline (`map(t => t.transcript).join("\n") || ""`),
on `FAILED` it throws `new Error("Transcription failed")`. -/
def pollLoop000 : Nat → (Nat → JobView) → Option (Except String String) :=
  pollLoopGen (fun j => Except.ok (String.intercalate "\n" j.transcripts))
    (Except.error "Transcription failed")

/-- Fixed delay between polls in the `src/index.js` loops:
`setTimeout(r, 5000)`. -/
def pollDelayMsIdx : Nat := 5000

/-- Fixed delay between polls in the `part_000` loop: `setTimeout(r, 4000)`. -/
def pollDelayMs000 : Nat := 4000

theorem pollLoopGen_step (onDone : JobView → Except String String)
    (onFail : Except String String) (fuel : Nat) (jobs : Nat → JobView)
    (h : nonTerminal (jobs 0).status) :
    pollLoopGen onDone onFail (fuel + 1) jobs =
      pollLoopGen onDone onFail fuel (fun i => jobs (i + 1)) := by
  obtain ⟨h1, h2⟩ := h
  cases hs : (jobs 0).status <;> simp [pollLoopGen, hs] <;>
    simp [hs] at h1 h2

theorem pollLoopGen_completed (onDone : JobView → Except String String)
    (onFail : Except String String) (k : Nat) :
    ∀ (jobs : Nat → JobView) (m : Nat),
      (∀ i, i < k → nonTerminal (jobs i).status) →
      (jobs k).status = JobStatus.completed →
      pollLoopGen onDone onFail (k + 1 + m) jobs = some (onDone (jobs k)) := by
  induction k with
  | zero =>
    intro jobs m _ hc
    have : 0 + 1 + m = m + 1 := by omega
    rw [this]
    simp [pollLoopGen, hc]
  | succ k ih =>
    intro jobs m h hc
    have hnt : nonTerminal (jobs 0).status := h 0 (by omega)
    have : k + 1 + 1 + m = (k + 1 + m) + 1 := by omega
    rw [this, pollLoopGen_step onDone onFail _ jobs hnt]
    exact ih (fun i => jobs (i + 1)) m
      (fun i hi => h (i + 1) (by omega)) hc

theorem pollLoopGen_failed (onDone : JobView → Except String String)
    (onFail : Except String String) (k : Nat) :
    ∀ (jobs : Nat → JobView) (m : Nat),
      (∀ i, i < k → nonTerminal (jobs i).status) →
      (jobs k).status = JobStatus.failed →
      pollLoopGen onDone onFail (k + 1 + m) jobs = some onFail := by
  induction k with
  | zero =>
    intro jobs m _ hc
    have : 0 + 1 + m = m + 1 := by omega
    rw [this]
    simp [pollLoopGen, hc]
  | succ k ih =>
    intro jobs m h hc
    have hnt : nonTerminal (jobs 0).status := h 0 (by omega)
    have : k + 1 + 1 + m = (k + 1 + m) + 1 := by omega
    rw [this, pollLoopGen_step onDone onFail _ jobs hnt]
    exact ih (fun i => jobs (i + 1)) m
      (fun i hi => h (i + 1) (by omega)) hc

theorem pollLoopGen_noTerminal (onDone : JobView → Except String String)
    (onFail : Except String String) (fuel : Nat) :
    ∀ (jobs : Nat → JobView),
      (∀ i, nonTerminal (jobs i).status) →
      pollLoopGen onDone onFail fuel jobs = none := by
  induction fuel with
  | zero => intro jobs _; rfl
  | succ fuel ih =>
    intro jobs h
    rw [pollLoopGen_step onDone onFail fuel jobs (h 0)]
    exact ih (fun i => jobs (i + 1)) (fun i => h (i + 1))

/-- C2: the transcription polling loops of `src/index.js` (lines 100-114)
and `part_000` (lines 109-123) terminate and return exactly the transcript
text extracted from the completed job's payload when the status sequence
reaches `COMPLETED` after finitely many non-`FAILED` statuses; they raise a
transcription error when the first terminal status is `FAILED`; they wait a
fixed 4-5 second interval between polls (5000 ms resp. 4000 ms); and they
poll forever when no terminal status ever appears. -/
theorem c2_polling_loop_behaviour (jobs : Nat → JobView) (k m : Nat) :
    ((∀ i, i < k → nonTerminal (jobs i).status) →
      (jobs k).status = JobStatus.completed →
      (∀ t rest, (jobs k).transcripts = t :: rest →
        pollLoopIdx (k + 1 + m) jobs = some (Except.ok t)) ∧
      pollLoop000 (k + 1 + m) jobs =
        some (Except.ok (String.intercalate "\n" (jobs k).transcripts))) ∧
    ((∀ i, i < k → nonTerminal (jobs i).status) →
      (jobs k).status = JobStatus.failed →
      pollLoopIdx (k + 1 + m) jobs =
        some (Except.error "Transcription failed") ∧
      pollLoop000 (k + 1 + m) jobs =
        some (Except.error "Transcription failed")) ∧
    ((∀ i, nonTerminal (jobs i).status) →
      pollLoopIdx m jobs = none ∧ pollLoop000 m jobs = none) ∧
    (4 * 1000 ≤ pollDelayMsIdx ∧ pollDelayMsIdx ≤ 5 * 1000 ∧
      4 * 1000 ≤ pollDelayMs000 ∧ pollDelayMs000 ≤ 5 * 1000) := by
  refine ⟨?_, ?_, ?_, by decide⟩
  · intro h hc
    constructor
    · intro t rest ht
      have := pollLoopGen_completed extractFirstTranscript
        (Except.error "Transcription failed") k jobs m h hc
      simpa [pollLoopIdx, extractFirstTranscript, ht] using this
    · exact pollLoopGen_completed _ _ k jobs m h hc
  · intro h hf
    exact ⟨pollLoopGen_failed _ _ k jobs m h hf,
      pollLoopGen_failed _ _ k jobs m h hf⟩
  · intro h
    exact ⟨pollLoopGen_noTerminal _ _ m jobs h,
      pollLoopGen_noTerminal _ _ m jobs h⟩

/-- Concrete status sequence for the C2 witness:
`SUBMITTED -> IN_PROGRESS -> COMPLETED` with payload `["hello world"]`. -/
def c2Jobs : Nat → JobView := fun i =>
  if i = 0 then ⟨JobStatus.submitted, []⟩
  else if i = 1 then ⟨JobStatus.inProgress, []⟩
  else ⟨JobStatus.completed, ["hello world"]⟩

theorem c2_polling_loop_behaviour_witness :
    pollLoopIdx 3 c2Jobs = some (Except.ok "hello world") ∧
    pollLoop000 3 c2Jobs = some (Except.ok "hello world") := by
  have h := (c2_polling_loop_behaviour c2Jobs 2 0).1
    (by decide) (by decide)
  exact ⟨h.1 "hello world" [] (by decide), h.2⟩

theorem str_data_append (a b : String) : (a ++ b).data = a.data ++ b.data := by
  cases a
  cases b
  rfl

theorem str_append_assoc (a b c : String) : a ++ b ++ c = a ++ (b ++ c) := by
  cases a with
  | mk la =>
    cases b with
    | mk lb =>
      cases c with
      | mk lc =>
        show String.mk (la ++ lb ++ lc) = String.mk (la ++ (lb ++ lc))
        rw [List.append_assoc]

theorem str_append_empty (a : String) : a ++ "" = a := by
  cases a with
  | mk la =>
    show String.mk (la ++ []) = String.mk la
    rw [List.append_nil]

theorem str_empty_append (a : String) : "" ++ a = a := by
  cases a with
  | mk la =>
    show String.mk ([] ++ la) = String.mk la
    rw [List.nil_append]

theorem str_ne_empty_of_data_ne_nil (a : String) (h : a.data ≠ []) : a ≠ "" := by
  intro he
  apply h
  rw [he]

/-- Model of JavaScript's `String.prototype.trim`: drop whitespace from both
ends.  Defined over the character list so that it computes by `decide`. -/
def jsTrim (s : String) : String :=
  String.mk (((s.data.dropWhile Char.isWhitespace).reverse.dropWhile
    Char.isWhitespace).reverse)

/-- One iteration of the `part_000` OCR loop body (lines 78-87): a rejected
`Tesseract.recognize` call is caught and ignored; otherwise the recognized
text (`result?.data?.text || ""`) is trimmed and, when non-blank, appended
to the accumulator followed by a newline. -/
def ocrStep000 (acc : String) (r : Except String String) : String :=
  match r with
  | Except.ok t =>
    if jsTrim t = "" then acc else acc ++ (jsTrim t ++ "\n")
  | Except.error _ => acc

/-- The `part_000` visual-text extraction (lines 75-87): fold the per-frame
OCR outcomes over the frame list in order.  Total — a per-frame failure can
never escape this function. -/
def extractVisualText000 (frames : List (Except String String)) : String :=
  frames.foldl ocrStep000 ""

/-- The text a frame contributes in `part_000`: `none` when its OCR raised
or its trimmed text is blank, otherwise the trimmed text. -/
def okFrameText (r : Except String String) : Option String :=
  match r with
  | Except.ok t => if jsTrim t = "" then none else some (jsTrim t)
  | Except.error _ => none

/-- Newline-terminated concatenation, in order. -/
def concatWithNewlines : List String → String
  | [] => ""
  | t :: rest => t ++ ("\n" ++ concatWithNewlines rest)

/-- The OCR loop of the first `src/index.js` handler (lines 71-78): there is
no try/catch around `Tesseract.recognize`, so a rejected OCR call escapes the
loop, and the recognized text is appended as `"\n" + text` unconditionally
(blank text included). -/
def visualLoopIdx (acc : String) :
    List (Except String String) → Except String String
  | [] => Except.ok acc
  | r :: rest =>
    match r with
    | Except.ok t => visualLoopIdx (acc ++ ("\n" ++ t)) rest
    | Except.error e => Except.error e

/-- Entry point of the first-variant OCR loop with the initial empty
accumulator (`let visualText = ""`). -/
def extractVisualTextIdx (frames : List (Except String String)) :
    Except String String :=
  visualLoopIdx "" frames

theorem extractVisualText000_foldl (frames : List (Except String String)) :
    ∀ acc : String,
      frames.foldl ocrStep000 acc =
        acc ++ concatWithNewlines (frames.filterMap okFrameText) := by
  induction frames with
  | nil =>
    intro acc
    simp [concatWithNewlines, str_append_empty]
  | cons r rest ih =>
    intro acc
    cases r with
    | ok t =>
      by_cases hb : jsTrim t = ""
      · simp [ocrStep000, okFrameText, hb, ih]
      · rw [List.foldl_cons, List.filterMap_cons]
        have h1 : ocrStep000 acc (Except.ok t) = acc ++ (jsTrim t ++ "\n") := by
          simp [ocrStep000, hb]
        have h2 : okFrameText (Except.ok t) = some (jsTrim t) := by
          simp [okFrameText, hb]
        rw [h1, h2, ih]
        simp only [concatWithNewlines]
        rw [str_append_assoc, str_append_assoc]
    | error e =>
      simp [ocrStep000, okFrameText, ih]

/-- C3 counterexample: in the first `src/index.js` OCR loop (lines 71-78)
a failing frame makes the whole extraction raise — the per-frame error is
not caught — and a successfully recognized blank frame emits an empty line
(`"\n" + ""`), so the claim "the visual-text extraction never raises ...
blank per-frame results skipped" is false on that cited loop. -/
theorem c3_counterexample :
    extractVisualTextIdx [Except.error "Tesseract failed"] =
      Except.error "Tesseract failed" ∧
    extractVisualTextIdx [Except.ok ""] = Except.ok "\n" := by
  constructor
  · rfl
  · show Except.ok ("" ++ ("\n" ++ "")) = Except.ok "\n"
    rw [str_append_empty, str_empty_append]

/-- C3 (amended): in the `part_000` variant (lines 75-87) the visual-text
extraction never raises — it is a total fold in which each per-frame OCR
failure is skipped — and its result is the newline-terminated concatenation
of exactly the successfully recognized frames' non-blank trimmed text, in
original frame order, with blank results skipped; zero frames yield the
empty text.  (The first `src/index.js` variant instead propagates per-frame
OCR errors and appends blank text, see the counterexample.) -/
theorem c3_visual_text_extraction_p000 (frames : List (Except String String)) :
    extractVisualText000 frames =
      concatWithNewlines (frames.filterMap okFrameText) ∧
    extractVisualText000 [] = "" := by
  constructor
  · rw [extractVisualText000, extractVisualText000_foldl frames "",
      str_empty_append]
  · rfl

/-- Truthiness of an optional JS string field: `undefined` and the empty
string are falsy, every other string is truthy. -/
def jsTruthy (o : Option String) : Bool :=
  match o with
  | none => false
  | some s => s != ""

/-- Extraction of `chatResp.choices[0]?.message?.content || ""` in the
fallback-chain variant (`src/index.js` line 1144): a missing content field
collapses to the empty string. -/
def chatExtract (content : Option String) : String :=
  content.getD ""

/-- The fields of the parsed Bedrock response body that the fallback-chain
variant probes (`src/index.js` lines 1175-1180), each `none` when absent. -/
structure BedrockParsed where
  generation : Option String
  output_text : Option String
  outputQtext : Option String
  outputs0text : Option String

/-- Field probing of the Bedrock branch in the fallback-chain variant
(`src/index.js` lines 1175-1180): `parsed.generation || parsed.output_text
|| parsed.output?.text || parsed.outputs?.[0]?.text || "⚠️ No output
generated from Bedrock."`. -/
def bedrockExtract (p : BedrockParsed) : String :=
  if jsTruthy p.generation then p.generation.getD ""
  else if jsTruthy p.output_text then p.output_text.getD ""
  else if jsTruthy p.outputQtext then p.outputQtext.getD ""
  else if jsTruthy p.outputs0text then p.outputs0text.getD ""
  else "⚠️ No output generated from Bedrock."

/-- Terminal state of the notes-generation step in the fallback-chain
variant: the notes text, the `usedModel` record and the list of providers
that were actually invoked, in invocation order. -/
structure NotesOutcome where
  finalNotes : String
  usedModel : String
  invoked : List String
  deriving DecidableEq, Repr

/-- The provider fallback chain of the third `src/index.js` handler (lines
1109-1189), as nested try/catch blocks: try ChatGPT; on any error try
Gemini; on any error try Bedrock; if all three raise, set the placeholder
notes and `usedModel = "None"`.  Each argument is the outcome of invoking
that provider (`Except.error` when the call raises): ChatGPT yields the
optional message content, Gemini yields `result.response.text()`, Bedrock
yields the parsed response body.  The function is total: no exception
escapes the generation step. -/
def notesChain (chat : Except Unit (Option String))
    (gem : Except Unit String) (bed : Except Unit BedrockParsed) :
    NotesOutcome :=
  match chat with
  | Except.ok content => ⟨chatExtract content, "ChatGPT", ["ChatGPT"]⟩
  | Except.error _ =>
    match gem with
    | Except.ok t => ⟨t, "Gemini", ["ChatGPT", "Gemini"]⟩
    | Except.error _ =>
      match bed with
      | Except.ok p =>
        ⟨bedrockExtract p, "Bedrock", ["ChatGPT", "Gemini", "Bedrock"]⟩
      | Except.error _ =>
        ⟨"⚠️ Failed to generate notes with all models.", "None",
          ["ChatGPT", "Gemini", "Bedrock"]⟩

/-- C1: in the fallback-chain variant (`src/index.js` lines 1109-1189) the
providers are attempted strictly in the order ChatGPT, Gemini, Bedrock; a
later provider is invoked only if every earlier one raised; the result is
the extracted output of the first provider that succeeds; and when all
three raise, the result is the non-empty placeholder text with
`usedModel = "None"`.  `notesChain` is total, so no exception escapes the
generation step. -/
theorem c1_fallback_chain (chat : Except Unit (Option String))
    (gem : Except Unit String) (bed : Except Unit BedrockParsed) :
    ((notesChain chat gem bed).invoked = ["ChatGPT"] ∨
      (notesChain chat gem bed).invoked = ["ChatGPT", "Gemini"] ∨
      (notesChain chat gem bed).invoked = ["ChatGPT", "Gemini", "Bedrock"]) ∧
    ("Gemini" ∈ (notesChain chat gem bed).invoked → chat = Except.error ()) ∧
    ("Bedrock" ∈ (notesChain chat gem bed).invoked →
      chat = Except.error () ∧ gem = Except.error ()) ∧
    (∀ c, chat = Except.ok c →
      notesChain chat gem bed = ⟨chatExtract c, "ChatGPT", ["ChatGPT"]⟩) ∧
    (∀ t, chat = Except.error () → gem = Except.ok t →
      notesChain chat gem bed = ⟨t, "Gemini", ["ChatGPT", "Gemini"]⟩) ∧
    (∀ p, chat = Except.error () → gem = Except.error () →
      bed = Except.ok p →
      notesChain chat gem bed =
        ⟨bedrockExtract p, "Bedrock", ["ChatGPT", "Gemini", "Bedrock"]⟩) ∧
    (chat = Except.error () → gem = Except.error () →
      bed = Except.error () →
      (notesChain chat gem bed).finalNotes =
        "⚠️ Failed to generate notes with all models." ∧
      (notesChain chat gem bed).finalNotes ≠ "" ∧
      (notesChain chat gem bed).usedModel = "None" ∧
      (notesChain chat gem bed).invoked =
        ["ChatGPT", "Gemini", "Bedrock"]) := by
  cases chat with
  | ok c => simp [notesChain]
  | error e =>
    cases e
    cases gem with
    | ok t => simp [notesChain]
    | error e2 =>
      cases e2
      cases bed with
      | ok p => simp [notesChain]
      | error e3 => cases e3; simp [notesChain]

/-- Witness for C1: with all three providers raising, the chain yields the
placeholder and records no provider; with ChatGPT succeeding, the chain
stops at ChatGPT with its extracted content. -/
theorem c1_fallback_chain_witness :
    (notesChain (Except.error ()) (Except.error ())
      (Except.error ())).finalNotes =
      "⚠️ Failed to generate notes with all models." ∧
    (notesChain (Except.error ()) (Except.error ())
      (Except.error ())).usedModel = "None" ∧
    notesChain (Except.ok (some "chat output")) (Except.error ())
      (Except.error ()) = ⟨"chat output", "ChatGPT", ["ChatGPT"]⟩ := by
  refine ⟨?_, ?_, ?_⟩
  · exact ((c1_fallback_chain (Except.error ()) (Except.error ())
      (Except.error ())).2.2.2.2.2.2 rfl rfl rfl).1
  · exact ((c1_fallback_chain (Except.error ()) (Except.error ())
      (Except.error ())).2.2.2.2.2.2 rfl rfl rfl).2.2.1
  · exact (c1_fallback_chain (Except.ok (some "chat output"))
      (Except.error ()) (Except.error ())).2.2.2.1 (some "chat output") rfl

/-- C4 counterexample: in the fallback-chain variant, a ChatGPT success
whose message content is the empty string makes `finalNotes` empty —
`src/index.js` line 1144 applies no minimum-length guard and no raw-body
fallback — so the empty NotesDocument is passed downstream to rendering,
refuting the claim for that cited code place. -/
theorem c4_counterexample :
    (notesChain (Except.ok (some "")) (Except.error ())
      (Except.error ())).finalNotes = "" ∧
    (notesChain (Except.ok (some "")) (Except.error ())
      (Except.error ())).finalNotes.length < 10 := by
  constructor
  · rfl
  · decide

/-- A JSON value sitting in `parsed.generation` in `part_000`: either a
string, or a non-string object together with its `JSON.stringify` image
(the code distinguishes the two with a `typeof` check). -/
inductive JsonVal
  | str (s : String)
  | obj (stringified : String)

/-- Truthiness of the optional `parsed.generation` value: absent and the
empty string are falsy; a non-string object is always truthy. -/
def jsTruthyVal : Option JsonVal → Bool
  | none => false
  | some (JsonVal.str s) => s != ""
  | some (JsonVal.obj _) => true

/-- The text taken from `parsed.generation`: the string itself, or
`JSON.stringify(parsed.generation)` for a non-string value. -/
def jsonValText : JsonVal → String
  | JsonVal.str s => s
  | JsonVal.obj j => j

/-- The response fields probed by `part_000` (lines 176-180), each `none`
when the optional-chaining path is absent. -/
structure ParsedResp where
  output_text : Option String
  generation : Option JsonVal
  outputs0content0text : Option String
  outputs0text : Option String
  output : Option String

/-- The response probing of `part_000` (lines 175-181): try
`parsed.output_text`, then `parsed.generation` (stringified when not a
string), then `parsed.outputs?.[0]?.content?.[0]?.text`, then
`parsed.outputs?.[0]?.text`, then `parsed.output`, and fall back to the raw
response body `bodyStr`. -/
def extractRaw000 (p : ParsedResp) (bodyStr : String) : String :=
  if jsTruthy p.output_text then p.output_text.getD ""
  else if jsTruthyVal p.generation then
    match p.generation with
    | some v => jsonValText v
    | none => ""
  else if jsTruthy p.outputs0content0text then p.outputs0content0text.getD ""
  else if jsTruthy p.outputs0text then p.outputs0text.getD ""
  else if jsTruthy p.output then p.output.getD ""
  else bodyStr

/-- The placeholder notice substituted by `part_000` (line 184):
`"⚠️ Model returned empty output. Transcript length: " + transcript.length`. -/
def placeholder000 (tlen : Nat) : String :=
  "⚠️ Model returned empty output. Transcript length: " ++ toString tlen

/-- The minimum-length guard of `part_000` (lines 183-185):
`if (!finalNotes || finalNotes.trim().length < 10)` substitute the
placeholder notice. -/
def finalNotes000 (p : ParsedResp) (bodyStr : String) (tlen : Nat) : String :=
  if extractRaw000 p bodyStr = "" ∨
      (jsTrim (extractRaw000 p bodyStr)).length < 10 then
    placeholder000 tlen
  else extractRaw000 p bodyStr

theorem placeholder000_ne_empty (tlen : Nat) : placeholder000 tlen ≠ "" := by
  intro h
  have hd := congrArg String.data h
  rw [placeholder000, str_data_append] at hd
  have h2 := (List.append_eq_nil.mp hd).1
  exact absurd h2 (by decide)

/-- C4 (amended): in `part_000` (lines 174-185) the notes generator probes
the known response fields in priority order, falls back to the raw response
body when no probed field is populated, and substitutes the non-empty
placeholder notice when the extracted text is empty or its trimmed length
is below 10, so that variant's NotesDocument is never empty.  (The
fallback-chain variant's ChatGPT path, `src/index.js` line 1144, applies no
such guard and can pass an empty NotesDocument downstream — see the
counterexample.) -/
theorem c4_notes_probing_and_guard_p000 (p : ParsedResp) (bodyStr : String)
    (tlen : Nat) :
    (jsTruthy p.output_text = true →
      extractRaw000 p bodyStr = p.output_text.getD "") ∧
    (jsTruthy p.output_text = false → ∀ v, p.generation = some v →
      jsTruthyVal p.generation = true →
      extractRaw000 p bodyStr = jsonValText v) ∧
    (jsTruthy p.output_text = false → jsTruthyVal p.generation = false →
      jsTruthy p.outputs0content0text = false →
      jsTruthy p.outputs0text = false → jsTruthy p.output = false →
      extractRaw000 p bodyStr = bodyStr) ∧
    ((extractRaw000 p bodyStr = "" ∨
        (jsTrim (extractRaw000 p bodyStr)).length < 10) →
      finalNotes000 p bodyStr tlen = placeholder000 tlen) ∧
    finalNotes000 p bodyStr tlen ≠ "" := by
  refine ⟨?_, ?_, ?_, ?_, ?_⟩
  · intro h1
    simp [extractRaw000, h1]
  · intro h1 v hv h2
    rw [hv] at h2
    simp [extractRaw000, h1, hv, h2]
  · intro h1 h2 h3 h4 h5
    simp [extractRaw000, h1, h2, h3, h4, h5]
  · intro hshort
    simp [finalNotes000, hshort]
  · by_cases hshort : extractRaw000 p bodyStr = "" ∨
      (jsTrim (extractRaw000 p bodyStr)).length < 10
    · rw [finalNotes000, if_pos hshort]
      exact placeholder000_ne_empty tlen
    · rw [finalNotes000, if_neg hshort]
      push_neg at hshort
      exact hshort.1

/-- Concrete parsed response for the C4 witness: every probed field absent. -/
def c4Parsed : ParsedResp := ⟨none, none, none, none, none⟩

theorem c4_notes_probing_and_guard_p000_witness :
    extractRaw000 c4Parsed "short" = "short" ∧
    finalNotes000 c4Parsed "short" 42 = placeholder000 42 ∧
    finalNotes000 c4Parsed "short" 42 ≠ "" := by
  have h := c4_notes_probing_and_guard_p000 c4Parsed "short" 42
  refine ⟨h.2.2.1 rfl rfl rfl rfl rfl, h.2.2.2.1 ?_, h.2.2.2.2⟩
  right
  decide

/-- An HTTP error response as produced by the catch blocks: the status code
and the string placed in the JSON error body. -/
structure HttpResponse where
  status : Nat
  errorBody : String
  deriving DecidableEq, Repr

/-- The catch block of the `src/index.js` handlers (first variant lines
217-221; the other two are identical): always
`res.status(500).json({ error: "Error processing lecture." })`, independent
of the caught error. -/
def catchResponseIdx (errMessage : String) : HttpResponse :=
  ⟨500, "Error processing lecture."⟩

/-- The catch block of `part_000` (lines 320-324):
`res.status(500).json({ error: err.message || "Processing failed" })` — the
caught error's own message is placed in the response body. -/
def catchResponse000 (errMessage : String) : HttpResponse :=
  ⟨500, if errMessage != "" then errMessage else "Processing failed"⟩

/-- The `safeCleanup` helper (`src/index.js` lines 26-40; identical in the
other variants): for each path, attempt removal inside its own try/catch; a
failure is only logged (`console.warn`) and the loop continues.  `tryRemove`
is the outcome of the filesystem removal for a path.  Returns the paths
attempted, in order, together with the warning messages logged.  Total: no
cleanup error is ever re-raised. -/
def safeCleanup (tryRemove : String → Except String Unit) :
    List String → List String × List String
  | [] => ([], [])
  | p :: rest =>
    let r := safeCleanup tryRemove rest
    match tryRemove p with
    | Except.ok _ => (p :: r.1, r.2)
    | Except.error m => (p :: r.1, m :: r.2)

/-- The failure path of the `src/index.js` handlers (lines 217-221): run
`safeCleanup([framesDir, videoPath + ".wav", videoPath])`, then respond.
Returns the response together with the cleanup warnings that were logged. -/
def failurePathIdx (errMessage : String)
    (tryRemove : String → Except String Unit)
    (framesDir videoPath : String) : HttpResponse × List String :=
  (catchResponseIdx errMessage,
    (safeCleanup tryRemove [framesDir, videoPath ++ ".wav", videoPath]).2)

theorem safeCleanup_attempts_all (tryRemove : String → Except String Unit)
    (paths : List String) : (safeCleanup tryRemove paths).1 = paths := by
  induction paths with
  | nil => rfl
  | cons p rest ih =>
    rw [safeCleanup]
    cases tryRemove p <;> simp [ih]

/-- C5 counterexample: the catch block of `part_000` places the underlying
error's own message in the response body — e.g. a filesystem diagnostic is
sent to the client verbatim — refuting "a single generic error message that
does not include the underlying error's diagnostic details" for that cited
code place. -/
theorem c5_counterexample :
    catchResponse000 "ENOENT: no such file or directory, open uploads/abc" =
      ⟨500, "ENOENT: no such file or directory, open uploads/abc"⟩ ∧
    (catchResponse000
        "ENOENT: no such file or directory, open uploads/abc").errorBody ≠
      "Error processing lecture." := by
  constructor
  · decide
  · decide

/-- C5 (amended): in the `src/index.js` variants every pipeline error is
answered with status 500 and the fixed generic body
`"Error processing lecture."`, independent of the error's message and of
the cleanup outcomes; `safeCleanup` attempts every path, catches each
per-path failure and never re-raises, so a cleanup failure never changes
the response.  In `part_000` the catch block instead responds with status
500 and `err.message` itself (falling back to `"Processing failed"` when
the message is empty), leaking the diagnostics. -/
theorem c5_error_handling (errMessage : String)
    (tryRemove tryRemove2 : String → Except String Unit)
    (framesDir videoPath : String) (paths : List String) :
    (failurePathIdx errMessage tryRemove framesDir videoPath).1 =
      ⟨500, "Error processing lecture."⟩ ∧
    (failurePathIdx errMessage tryRemove framesDir videoPath).1 =
      (failurePathIdx errMessage tryRemove2 framesDir videoPath).1 ∧
    (safeCleanup tryRemove paths).1 = paths ∧
    (catchResponse000 errMessage).status = 500 ∧
    (errMessage ≠ "" →
      (catchResponse000 errMessage).errorBody = errMessage) := by
  refine ⟨rfl, rfl, safeCleanup_attempts_all tryRemove paths, rfl, ?_⟩
  intro h
  simp [catchResponse000, h]

theorem c5_error_handling_witness :
    (failurePathIdx "boom"
      (fun p => Except.error ("EACCES: " ++ p)) "frames/vid" "uploads/vid").1 =
      ⟨500, "Error processing lecture."⟩ ∧
    (safeCleanup (fun p => Except.error ("EACCES: " ++ p))
      ["frames/vid", "uploads/vid.wav", "uploads/vid"]).1 =
      ["frames/vid", "uploads/vid.wav", "uploads/vid"] ∧
    (catchResponse000 "boom").errorBody = "boom" := by
  have h := c5_error_handling "boom"
    (fun p => Except.error ("EACCES: " ++ p))
    (fun _ => Except.ok ()) "frames/vid" "uploads/vid"
    ["frames/vid", "uploads/vid.wav", "uploads/vid"]
  exact ⟨h.1, h.2.2.1, h.2.2.2.2 (by decide)⟩

/-- An observable action of one request handler, in program order: sending
the HTTP response, or a `safeCleanup` call over a list of paths. -/
inductive ReqEvent
  | respond (status : Nat)
  | cleanup (paths : List String)
  deriving DecidableEq, Repr

/-- Success path of the `src/index.js` handlers (first variant lines
211-215): respond with the artifact location, then
`safeCleanup([framesDir, audioPath, videoPath, pdfPath])` where
`audioPath = videoPath + ".wav"` and `pdfPath = videoPath + ".pdf"`. -/
def successEventsIdx (framesDir videoPath : String) : List ReqEvent :=
  [ReqEvent.respond 200,
    ReqEvent.cleanup
      [framesDir, videoPath ++ ".wav", videoPath, videoPath ++ ".pdf"]]

/-- Failure path of the `src/index.js` handlers (lines 217-221):
`safeCleanup([framesDir, videoPath + ".wav", videoPath])`, then the 500
response. -/
def failureEventsIdx (framesDir videoPath : String) : List ReqEvent :=
  [ReqEvent.cleanup [framesDir, videoPath ++ ".wav", videoPath],
    ReqEvent.respond 500]

/-- Success path of `part_000` (lines 309-318): respond, then clean up the
frames directory, the audio file, the video and the classic PDF. -/
def successEvents000 (framesDir videoPath : String) : List ReqEvent :=
  [ReqEvent.respond 200,
    ReqEvent.cleanup
      [framesDir, videoPath ++ ".wav", videoPath,
        videoPath ++ "-classic.pdf"]]

/-- Failure path of `part_000` (lines 320-324): clean up, then respond. -/
def failureEvents000 (framesDir videoPath : String) : List ReqEvent :=
  [ReqEvent.cleanup [framesDir, videoPath ++ ".wav", videoPath],
    ReqEvent.respond 500]

/-- Success path of `part_001` (lines 128-135): the `safeCleanup` call is
commented out, so the handler only responds — no deletion is attempted. -/
def successEvents001 (framesDir videoPath : String) : List ReqEvent :=
  [ReqEvent.respond 200]

/-- Failure path of `part_001` (lines 136-140): the cleanup call is
commented out here as well. -/
def failureEvents001 (framesDir videoPath : String) : List ReqEvent :=
  [ReqEvent.respond 500]

/-- Whether an event is a cleanup attempt covering the frames directory,
the audio file and the video. -/
def cleanupMentioning (framesDir audioPath videoPath : String)
    (e : ReqEvent) : Bool :=
  match e with
  | ReqEvent.cleanup ps =>
    ps.contains framesDir && ps.contains audioPath && ps.contains videoPath
  | ReqEvent.respond _ => false

/-- Whether a request trace attempts deletion of the three temporary
resources at some point before the request ends. -/
def attemptsCleanup (evs : List ReqEvent)
    (framesDir audioPath videoPath : String) : Bool :=
  evs.any (cleanupMentioning framesDir audioPath videoPath)

/-- Whether a request trace contains such a cleanup attempt strictly after
a response was sent. -/
def cleanupAfterRespond (evs : List ReqEvent)
    (framesDir audioPath videoPath : String) : Bool :=
  match evs with
  | [] => false
  | ReqEvent.respond _ :: rest =>
    attemptsCleanup rest framesDir audioPath videoPath ||
      cleanupAfterRespond rest framesDir audioPath videoPath
  | ReqEvent.cleanup _ :: rest =>
    cleanupAfterRespond rest framesDir audioPath videoPath

/-- C6 counterexample: in `part_001` both the success and the failure path
have their `safeCleanup` calls commented out, so no deletion of the frames
directory, audio file or source video is ever attempted — refuting the
claim for that variant. -/
theorem c6_counterexample :
    attemptsCleanup (successEvents001 "frames/vid" "uploads/vid")
      "frames/vid" ("uploads/vid" ++ ".wav") "uploads/vid" = false ∧
    attemptsCleanup (failureEvents001 "frames/vid" "uploads/vid")
      "frames/vid" ("uploads/vid" ++ ".wav") "uploads/vid" = false := by
  constructor
  · rfl
  · rfl

/-- C6 (amended): in the `src/index.js` handlers and `part_000`, both the
success and the failure path attempt deletion of the frames directory, the
extracted audio file and the uploaded source video before the request ends,
and on success this cleanup happens after the response carrying the
artifact location was sent; in `part_001` the cleanup calls are commented
out and no deletion is attempted on either path. -/
theorem c6_cleanup_attempted (framesDir videoPath : String) :
    attemptsCleanup (successEventsIdx framesDir videoPath)
      framesDir (videoPath ++ ".wav") videoPath = true ∧
    cleanupAfterRespond (successEventsIdx framesDir videoPath)
      framesDir (videoPath ++ ".wav") videoPath = true ∧
    attemptsCleanup (failureEventsIdx framesDir videoPath)
      framesDir (videoPath ++ ".wav") videoPath = true ∧
    attemptsCleanup (successEvents000 framesDir videoPath)
      framesDir (videoPath ++ ".wav") videoPath = true ∧
    cleanupAfterRespond (successEvents000 framesDir videoPath)
      framesDir (videoPath ++ ".wav") videoPath = true ∧
    attemptsCleanup (failureEvents000 framesDir videoPath)
      framesDir (videoPath ++ ".wav") videoPath = true ∧
    attemptsCleanup (successEvents001 framesDir videoPath)
      framesDir (videoPath ++ ".wav") videoPath = false := by
  refine ⟨?_, ?_, ?_, ?_, ?_, ?_, rfl⟩ <;>
    simp [attemptsCleanup, cleanupAfterRespond, successEventsIdx,
      failureEventsIdx, successEvents000, failureEvents000,
      cleanupMentioning, List.contains_cons]

/-- Whether a character list contains two adjacent stars `**` somewhere. -/
def hasStarPair : List Char → Bool
  | [] => false
  | [_] => false
  | a :: b :: rest => (a = '*' && b = '*') || hasStarPair (b :: rest)

/-- Whether the JS regex `/\*\*.*\*\*/` matches the line: some `**` is
followed, at least two characters later, by another `**` (a bold span
anywhere in the line, not necessarily wrapping the whole line). -/
def hasBoldSpan : List Char → Bool
  | [] => false
  | [_] => false
  | a :: b :: rest =>
    ((a = '*' && b = '*') && hasStarPair rest) || hasBoldSpan (b :: rest)

/-- `line.startsWith("#")`. -/
def startsWithHash (s : String) : Bool :=
  match s.data with
  | '#' :: _ => true
  | _ => false

/-- The renderer's heading test (`src/index.js` line 540 and line 1214):
`line.startsWith("#") || line.match(/\*\*.*\*\*/)`. -/
def isHeadingLine (s : String) : Bool :=
  startsWithHash s || hasBoldSpan s.data

/-- The renderer's bullet test (lines 553 and 1218): `/^[-*•]\s/`. -/
def isBulletLine (s : String) : Bool :=
  match s.data with
  | a :: b :: _ => (a = '-' || a = '*' || a = '•') && b.isWhitespace
  | _ => false

/-- Helper for `/^\d+\./`: after the leading digit, further digits followed
by a dot. -/
def digitsThenDot : List Char → Bool
  | [] => false
  | c :: rest => c = '.' || (c.isDigit && digitsThenDot rest)

/-- The renderer's numbered-list test (lines 565 and 1221): `/^\d+\./`. -/
def isNumberedLine (s : String) : Bool :=
  match s.data with
  | c :: rest => c.isDigit && digitsThenDot rest
  | [] => false

/-- The four rendering styles a non-blank line can receive. -/
inductive LineClass
  | heading
  | bullet
  | numbered
  | body
  deriving DecidableEq, Repr

/-- The line classification of both renderer variants (`src/index.js`
lines 536-584 and lines 1212-1228): an if/else-if chain testing heading,
then bullet, then numbered list, with justified body text as the default. -/
def classifyLine (s : String) : LineClass :=
  if isHeadingLine s then LineClass.heading
  else if isBulletLine s then LineClass.bullet
  else if isNumberedLine s then LineClass.numbered
  else LineClass.body

/-- Whether a character list begins with `**`. -/
def startsWithStarPair : List Char → Bool
  | x :: y :: _ => x = '*' && y = '*'
  | _ => false

/-- Whether a character list ends with `**`. -/
def endsWithStarPair (cs : List Char) : Bool :=
  startsWithStarPair cs.reverse

/-- A bold-wrapped whole character list: `**` at the start, `**` at the
end, with the two pairs disjoint. -/
def boldWrappedChars : List Char → Bool
  | a :: b :: rest => (a = '*' && b = '*') && endsWithStarPair rest
  | _ => false

/-- The heading pattern as the specification words it: a `#` prefix or a
bold-wrapped WHOLE line (`**...**`). -/
def boldWrappedWholeLine (s : String) : Bool :=
  boldWrappedChars s.data

/-- The classification the claim describes, differing from the code only in
the heading pattern: heading means `#` prefix or bold-wrapped whole line. -/
def specClassifyLine (s : String) : LineClass :=
  if startsWithHash s || boldWrappedWholeLine s then LineClass.heading
  else if isBulletLine s then LineClass.bullet
  else if isNumberedLine s then LineClass.numbered
  else LineClass.body

theorem hasStarPair_append_pair (xs ys : List Char) :
    hasStarPair (xs ++ '*' :: '*' :: ys) = true := by
  induction xs with
  | nil => simp [hasStarPair]
  | cons a xs ih =>
    cases xs with
    | nil => simp [hasStarPair]
    | cons b xs2 =>
      rw [List.cons_append, List.cons_append, hasStarPair]
      rw [List.cons_append] at ih
      simp [ih]

theorem hasBoldSpan_of_wrapped (s : String)
    (h : boldWrappedWholeLine s = true) : hasBoldSpan s.data = true := by
  rw [boldWrappedWholeLine] at h
  cases hd : s.data with
  | nil =>
    rw [hd] at h
    simp [boldWrappedChars] at h
  | cons a tl =>
    cases tl with
    | nil =>
      rw [hd] at h
      simp [boldWrappedChars] at h
    | cons b rest =>
      rw [hd] at h
      simp only [boldWrappedChars, Bool.and_eq_true, decide_eq_true_eq] at h
      obtain ⟨⟨ha, hb⟩, hend⟩ := h
      subst ha
      subst hb
      rw [endsWithStarPair] at hend
      cases hr : rest.reverse with
      | nil =>
        rw [hr] at hend
        simp [startsWithStarPair] at hend
      | cons x tl2 =>
        cases tl2 with
        | nil =>
          rw [hr] at hend
          simp [startsWithStarPair] at hend
        | cons y tl3 =>
          rw [hr] at hend
          simp only [startsWithStarPair, Bool.and_eq_true,
            decide_eq_true_eq] at hend
          obtain ⟨hx, hy⟩ := hend
          subst hx
          subst hy
          have hrest : rest = tl3.reverse ++ '*' :: '*' :: [] := by
            have h2 := congrArg List.reverse hr
            simpa using h2
          rw [hasBoldSpan, hrest]
          simp [hasStarPair_append_pair]

/-- C7 counterexample: a bullet line containing an inline bold span, such
as `- **key** point`, is classified as a heading by the code — the heading
test `/\*\*.*\*\*/` matches bold anywhere in the line — while under the
claim's patterns (heading = `#` prefix or bold-wrapped whole line) it is a
bullet; so the claim's classification is false on the code. -/
theorem c7_counterexample :
    classifyLine "- **key** point" = LineClass.heading ∧
    specClassifyLine "- **key** point" = LineClass.bullet ∧
    LineClass.heading ≠ LineClass.bullet := by
  refine ⟨by decide, by decide, by decide⟩

/-- C7 (amended): both renderer variants classify each non-blank line by
the if/else-if precedence heading, then bullet, then numbered list, then
justified body — a line matching an earlier pattern is never rendered under
a later one — but the heading pattern is a `#` prefix OR a bold span
`**...**` occurring anywhere in the line (not only a bold-wrapped whole
line; a bold-wrapped whole line is still a heading as a special case). -/
theorem c7_line_classification (s : String) :
    (isHeadingLine s = true → classifyLine s = LineClass.heading) ∧
    (boldWrappedWholeLine s = true → classifyLine s = LineClass.heading) ∧
    (isHeadingLine s = false → isBulletLine s = true →
      classifyLine s = LineClass.bullet) ∧
    (isHeadingLine s = false → isBulletLine s = false →
      isNumberedLine s = true → classifyLine s = LineClass.numbered) ∧
    (isHeadingLine s = false → isBulletLine s = false →
      isNumberedLine s = false → classifyLine s = LineClass.body) ∧
    (isBulletLine s = true → classifyLine s ≠ LineClass.numbered ∧
      classifyLine s ≠ LineClass.body) ∧
    (isNumberedLine s = true → classifyLine s ≠ LineClass.body) := by
  refine ⟨?_, ?_, ?_, ?_, ?_, ?_, ?_⟩
  · intro h
    simp [classifyLine, h]
  · intro h
    have hb : hasBoldSpan s.data = true := hasBoldSpan_of_wrapped s h
    have hh : isHeadingLine s = true := by
      rw [isHeadingLine, hb]
      simp
    simp [classifyLine, hh]
  · intro h1 h2
    simp [classifyLine, isHeadingLine, h2] at h1 ⊢
    simp [h1]
  · intro h1 h2 h3
    simp [classifyLine, h1, h2, h3]
  · intro h1 h2 h3
    simp [classifyLine, h1, h2, h3]
  · intro h2
    by_cases h1 : isHeadingLine s = true
    · simp [classifyLine, h1]
    · rw [Bool.not_eq_true] at h1
      simp [classifyLine, h1, h2]
  · intro h3
    by_cases h1 : isHeadingLine s = true
    · simp [classifyLine, h1]
    · rw [Bool.not_eq_true] at h1
      by_cases h2 : isBulletLine s = true
      · simp [classifyLine, h1, h2]
      · rw [Bool.not_eq_true] at h2
        simp [classifyLine, h1, h2, h3]

theorem c7_line_classification_witness :
    classifyLine "# Title" = LineClass.heading ∧
    classifyLine "**Bold Title**" = LineClass.heading ∧
    classifyLine "- item" = LineClass.bullet ∧
    classifyLine "1. step" = LineClass.numbered ∧
    classifyLine "plain text" = LineClass.body := by
  refine ⟨(c7_line_classification "# Title").1 (by decide),
    (c7_line_classification "**Bold Title**").2.1 (by decide),
    (c7_line_classification "- item").2.2.1 (by decide) (by decide),
    (c7_line_classification "1. step").2.2.2.1 (by decide) (by decide)
      (by decide),
    (c7_line_classification "plain text").2.2.2.2.1 (by decide) (by decide)
      (by decide)⟩

/-- The events of the render-then-upload step, in temporal order:
`doc.end()` is issued, the write stream's `finish` event fires (all bytes
flushed to storage), the file is read back for upload
(`fs.readFileSync(pdfPath)`). -/
inductive PdfEv
  | docEnd
  | streamFinish
  | readFileForUpload
  deriving DecidableEq, BEq, Repr

/-- Possible schedules of the FIRST `src/index.js` variant (lines 191-201):
`doc.end()` is called and `readFileSync` runs immediately after, without
awaiting the stream's `finish` event, so the asynchronous flush may land
before or after the read. -/
def pdfTracesV1 : List (List PdfEv) :=
  [[PdfEv.docEnd, PdfEv.streamFinish, PdfEv.readFileForUpload],
    [PdfEv.docEnd, PdfEv.readFileForUpload, PdfEv.streamFinish]]

/-- Possible schedules of the second and third `src/index.js` variants
(lines 494-500 and 1192-1235) and of `part_000` (lines 189-194): the
surrounding promise resolves only on the stream's `finish` event, and the
code awaits it before reading, so the flush always precedes the read. -/
def pdfTracesV2 : List (List PdfEv) :=
  [[PdfEv.docEnd, PdfEv.streamFinish, PdfEv.readFileForUpload]]

/-- Whether, in a schedule, the stream finished before the file was read
for upload. -/
def flushBeforeRead : List PdfEv → Bool
  | [] => false
  | PdfEv.streamFinish :: rest => rest.contains PdfEv.readFileForUpload
  | PdfEv.readFileForUpload :: _ => false
  | PdfEv.docEnd :: rest => flushBeforeRead rest

/-- C8 counterexample: the first `src/index.js` variant admits the schedule
in which `readFileSync` runs before the write stream has flushed, so "the
bytes uploaded are never those of a partially written file" is false for
that variant. -/
theorem c8_counterexample :
    [PdfEv.docEnd, PdfEv.readFileForUpload, PdfEv.streamFinish] ∈
      pdfTracesV1 ∧
    flushBeforeRead
      [PdfEv.docEnd, PdfEv.readFileForUpload, PdfEv.streamFinish] = false := by
  refine ⟨by simp [pdfTracesV1], by decide⟩

/-- C8 (amended): in the second and third `src/index.js` variants and in
`part_000` rendering completion is awaited on the write stream's `finish`
event, so in every schedule the PDF bytes are fully flushed before the file
is read for upload; the FIRST variant does not await the stream and admits
a schedule in which the file is read before the flush completes. -/
theorem c8_flush_before_read :
    pdfTracesV2.all flushBeforeRead = true ∧
    pdfTracesV1.all flushBeforeRead = false := by
  refine ⟨by decide, by decide⟩

/-- The multer upload limit of the three `src/index.js` servers (lines 24,
251 and 671): `limits: { fileSize: 500 * 1024 * 1024 }`. -/
def uploadLimitIdx : Nat := 500 * 1024 * 1024

/-- The multer upload limit of `part_000` (line 27). -/
def uploadLimit000 : Nat := 500 * 1024 * 1024

/-- The multer upload limit of `part_001` (lines 16-19). -/
def uploadLimit001 : Nat := 500 * 1024 * 1024

/-- The pipeline stages of one `POST /process` request, in order. -/
inductive Stage
  | extractAudio
  | extractFrames
  | ocr
  | transcribe
  | generateNotes
  | render
  | uploadArtifact
  deriving DecidableEq, Repr

/-- The stage list a request runs when it passes the upload middleware. -/
def pipelineStages : List Stage :=
  [Stage.extractAudio, Stage.extractFrames, Stage.ocr, Stage.transcribe,
    Stage.generateNotes, Stage.render, Stage.uploadArtifact]

/-- Models the multer upload middleware in front of every `/process`
handler (an external library configured by the repository): a file whose
size exceeds `limits.fileSize` is rejected with a `LIMIT_FILE_SIZE` error
before the route handler — and hence any pipeline stage — runs. -/
def stagesRun (limit size : Nat) : List Stage :=
  if size ≤ limit then pipelineStages else []

/-- C9: every variant configures the upload middleware with a 500 MB
(`500 * 1024 * 1024` bytes) limit on the video field, and an upload
exceeding that limit causes no pipeline stage to run. -/
theorem c9_upload_limit (size : Nat) :
    uploadLimitIdx = 500 * 1024 * 1024 ∧
    uploadLimit000 = uploadLimitIdx ∧
    uploadLimit001 = uploadLimitIdx ∧
    (uploadLimitIdx < size → stagesRun uploadLimitIdx size = []) ∧
    (uploadLimitIdx < size → ∀ st, st ∉ stagesRun uploadLimitIdx size) := by
  refine ⟨rfl, rfl, rfl, ?_, ?_⟩
  · intro h
    rw [stagesRun, if_neg (by omega)]
  · intro h st
    rw [stagesRun, if_neg (by omega)]
    exact List.not_mem_nil st

theorem c9_upload_limit_witness :
    uploadLimitIdx < 500 * 1024 * 1024 + 1 ∧
    stagesRun uploadLimitIdx (500 * 1024 * 1024 + 1) = [] := by
  exact ⟨by decide,
    (c9_upload_limit (500 * 1024 * 1024 + 1)).2.2.2.1 (by decide)⟩

/-- The `transcribeJob` polling loop of the dual-language variant
(`src/index.js` lines 353-371): like the other loops, but a `FAILED`
status RETURNS the empty string instead of throwing. -/
def transcribeJobLoop : Nat → (Nat → JobView) → Option (Except String String) :=
  pollLoopGen extractFirstTranscript (Except.ok "")

/-- The Hindi transliteration step (`src/index.js` lines 324-337 and
379-383): `some mapped` when the external call returned `SUCCESS` with a
romanized mapping, `none` when it failed or returned non-success — in which
case the original text is kept; the step is only applied to a non-empty
Hindi transcript. -/
def applyTransliteration (svc : Option String) (transcriptHI : String) :
    String :=
  if transcriptHI != "" then svc.getD transcriptHI else transcriptHI

/-- The transcript combination of the dual-language variant
(`src/index.js` lines 385-397): label and merge when both are non-empty,
otherwise `transcriptEN || transcriptHI || "No transcript available."`. -/
def mergedTranscript (transcriptEN transcriptHI : String) : String :=
  if transcriptEN != "" && transcriptHI != "" then
    "\n--- 🗣️ English Transcription ---\n" ++ transcriptEN ++
      "\n\n--- 🇮🇳 Hindi (Romanized) Transcription ---\n" ++
      transcriptHI ++ "\n"
  else if transcriptEN != "" then transcriptEN
  else if transcriptHI != "" then transcriptHI
  else "No transcript available."

/-- C10 counterexample: the merge decides by string truthiness, not by job
success.  A job that COMPLETES with an empty transcript is indistinguishable
from a FAILED one: with the English job completing with empty text and the
Hindi job failing, exactly one job succeeded, yet the merged transcript is
the placeholder, not that job's (empty) text; and a Hindi-only success is
merged as its romanized, not verbatim, text. -/
theorem c10_counterexample :
    transcribeJobLoop 1 (fun _ => ⟨JobStatus.completed, [""]⟩) =
      some (Except.ok "") ∧
    transcribeJobLoop 1 (fun _ => ⟨JobStatus.failed, []⟩) =
      some (Except.ok "") ∧
    mergedTranscript "" "" = "No transcript available." ∧
    "No transcript available." ≠ "" ∧
    applyTransliteration (some "namaste") "नमस्ते" = "namaste" ∧
    "namaste" ≠ "नमस्ते" := by
  refine ⟨rfl, rfl, by decide, by decide, by decide, by decide⟩

/-- C10 (amended): in the dual-language variant a FAILED transcription job
never aborts the pipeline — the loop returns the empty string for that
language — and when both per-language transcripts are empty the pipeline
continues with the fixed placeholder `"No transcript available."`; when
exactly one transcript is non-empty (its job succeeded with non-empty text,
the Hindi one as romanized by the transliteration step) the merged
transcript equals that transcript, English preferred; when both are
non-empty they are merged with section labels. -/
theorem c10_dual_language_merge (jobs : Nat → JobView) (k m : Nat)
    (transcriptEN transcriptHI : String) :
    ((∀ i, i < k → nonTerminal (jobs i).status) →
      (jobs k).status = JobStatus.failed →
      transcribeJobLoop (k + 1 + m) jobs = some (Except.ok "")) ∧
    (mergedTranscript "" "" = "No transcript available." ∧
      mergedTranscript "" "" ≠ "") ∧
    (transcriptEN ≠ "" → transcriptHI = "" →
      mergedTranscript transcriptEN transcriptHI = transcriptEN) ∧
    (transcriptEN = "" → transcriptHI ≠ "" →
      mergedTranscript transcriptEN transcriptHI = transcriptHI) ∧
    (transcriptEN ≠ "" → transcriptHI ≠ "" →
      mergedTranscript transcriptEN transcriptHI =
        "\n--- 🗣️ English Transcription ---\n" ++ transcriptEN ++
          "\n\n--- 🇮🇳 Hindi (Romanized) Transcription ---\n" ++
          transcriptHI ++ "\n") := by
  refine ⟨?_, ⟨by decide, by decide⟩, ?_, ?_, ?_⟩
  · intro h hf
    exact pollLoopGen_failed extractFirstTranscript (Except.ok "") k jobs m
      h hf
  · intro h1 h2
    simp [mergedTranscript, h1, h2]
  · intro h1 h2
    simp [mergedTranscript, h1, h2]
  · intro h1 h2
    simp [mergedTranscript, h1, h2]

theorem c10_dual_language_merge_witness :
    transcribeJobLoop 2 (fun i =>
      if i = 0 then ⟨JobStatus.inProgress, []⟩
      else ⟨JobStatus.failed, []⟩) = some (Except.ok "") ∧
    mergedTranscript "hello" "" = "hello" ∧
    mergedTranscript "" "namaste" = "namaste" := by
  have h := c10_dual_language_merge (fun i =>
    if i = 0 then ⟨JobStatus.inProgress, []⟩
    else ⟨JobStatus.failed, []⟩) 1 0 "hello" ""
  have h2 := c10_dual_language_merge (fun _ => ⟨JobStatus.failed, []⟩) 0 0
    "" "namaste"
  exact ⟨h.1 (by decide) (by decide), h.2.2.1 (by decide) rfl,
    h2.2.2.2.1 rfl (by decide)⟩

end SmartClassroom
